import Mathlib

/-!
Shallow embedding of the Claw-of-Chronos off-chain relay:
the task snapshot cache and event processing (`src/relay/src/chain.ts`),
the deliberation message store (`store.ts`) and the HTTP message routes
(`routes.ts`), together with proofs about the spec's claims on them.

Times are unix seconds (poll sweep) or milliseconds (rate limiter),
modelled as `Nat`.  JavaScript arrays with holes (produced by assigning
past the end) are modelled as `List (Option Nat)` with `none` for a hole.
-/

namespace Chronos

/-- One reveal record `{ agent, optionIndex }` as pushed by `processLog`. -/
structure Reveal where
  agent : String
  optionIndex : Nat
  deriving DecidableEq, Repr

/-- The cached task record (`interface CachedTask` in `chain.ts`, the
capacity-triggered variant: `requiredAgents`, `deliberationDuration`,
`deliberationStart` = 0 until full, `cancelled`). `optionVotes` is a
JavaScript array that may acquire holes, hence `List (Option Nat)`. -/
structure CachedTask where
  id : Nat
  creator : String
  description : String
  options : List String
  bounty : String
  requiredAgents : Nat
  deliberationDuration : Nat
  deliberationStart : Nat
  cancelled : Bool
  phase : Nat
  resolved : Bool
  winningOption : Nat
  isTie : Bool
  agents : List String
  revealCount : Nat
  optionVotes : List (Option Nat)
  reveals : List Reveal
  deriving DecidableEq, Repr

/-- The in-memory cache `const tasks = new Map<number, CachedTask>()`,
modelled as an insertion-ordered association list keyed by `id`. -/
abbrev TaskMap := List CachedTask

/-- `tasks.get(id)`. -/
def lookupTask : TaskMap → Nat → Option CachedTask
  | [], _ => none
  | t :: ts, i => if t.id = i then some t else lookupTask ts i

/-- `tasks.set(id, t)`: replace the value at an existing key in place,
otherwise append (JavaScript `Map` insertion-order semantics). -/
def setTask : TaskMap → Nat → CachedTask → TaskMap
  | [], _, t' => [t']
  | t :: ts, i, t' => if t.id = i then t' :: ts else t :: setTask ts i t'

/-- Stable insertion step for the descending-id sort. -/
def insertByIdDesc (t : CachedTask) : List CachedTask → List CachedTask
  | [] => [t]
  | u :: us => if u.id ≤ t.id then t :: u :: us else u :: insertByIdDesc t us

/-- `getAllTasks()`: `Array.from(tasks.values()).sort((a, b) => b.id - a.id)`. -/
def getAllTasks (m : TaskMap) : List CachedTask :=
  m.foldr insertByIdDesc []

/-- `getTask(id)`: `tasks.get(id)` — no transformation of the stored record. -/
def getTask (m : TaskMap) (id : Nat) : Option CachedTask :=
  lookupTask m id

/-- Read `arr[i] ?? 0` on a JavaScript number array with holes. -/
def jsRead (a : List (Option Nat)) (i : Nat) : Nat :=
  ((a.get? i).bind id).getD 0

/-- Write `arr[i] = v` on a JavaScript array: in bounds it updates the
cell; past the end it pads with holes and extends the array to `i + 1`. -/
def jsWrite (a : List (Option Nat)) (i : Nat) (v : Nat) : List (Option Nat) :=
  if i < a.length then a.set i (some v)
  else a ++ List.replicate (i - a.length) none ++ [some v]

/-- Decoded ledger events, one constructor per case of `processLog`'s
switch (the fields the handler consumes, already number-converted). -/
inductive Event where
  | taskCreated (taskId : Nat) (creator description : String)
      (options : List String) (bounty : String)
      (requiredAgents deliberationDuration : Nat)
  | taskStarted (taskId deliberationStart : Nat)
  | taskCancelled (taskId : Nat) (creator : String) (refund : Nat)
  | agentJoined (taskId : Nat) (agent : String)
  | phaseAdvanced (taskId phase : Nat)
  | commitSubmitted (taskId : Nat) (agent : String)
  | revealSubmitted (taskId : Nat) (agent : String) (optionIndex : Nat)
  | taskResolved (taskId winningOption : Nat) (isTie : Bool)
  deriving DecidableEq, Repr

/-- `processLog` from `chain.ts` (the live-update variant): apply one
decoded event to the task cache. -/
def processLog (ev : Event) (m : TaskMap) : TaskMap :=
  match ev with
  | .taskCreated id creator description options bounty requiredAgents deliberationDuration =>
      setTask m id
        { id := id, creator := creator, description := description
          options := options, bounty := bounty
          requiredAgents := requiredAgents
          deliberationDuration := deliberationDuration
          deliberationStart := 0, cancelled := false, phase := 0
          resolved := false, winningOption := 0, isTie := false
          agents := [], revealCount := 0
          optionVotes := List.replicate options.length (some 0)
          reveals := [] }
  | .taskStarted id start =>
      match lookupTask m id with
      | none => m
      | some t => setTask m id { t with deliberationStart := start, phase := 1 }
  | .taskCancelled id _ _ =>
      match lookupTask m id with
      | none => m
      | some t => setTask m id { t with cancelled := true, phase := 4 }
  | .agentJoined id agent =>
      match lookupTask m id with
      | none => m
      | some t =>
          if agent ∈ t.agents then m
          else setTask m id { t with agents := t.agents ++ [agent] }
  | .phaseAdvanced id phase =>
      match lookupTask m id with
      | none => m
      | some t => setTask m id { t with phase := phase }
  | .commitSubmitted _ _ => m
  | .revealSubmitted id agent optIdx =>
      match lookupTask m id with
      | none => m
      | some t =>
          setTask m id
            { t with
              revealCount := t.revealCount + 1
              optionVotes := jsWrite t.optionVotes optIdx (jsRead t.optionVotes optIdx + 1)
              reveals := t.reveals ++ [⟨agent, optIdx⟩] }
  | .taskResolved id winningOption isTie =>
      match lookupTask m id with
      | none => m
      | some t =>
          setTask m id
            { t with resolved := true, winningOption := winningOption
                     isTie := isTie, phase := 4 }

/-- `COMMIT_DURATION` from `chain.ts`. -/
def COMMIT_DURATION : Nat := 60

/-- `REVEAL_DURATION` from `chain.ts`. -/
def REVEAL_DURATION : Nat := 60

/-- The per-task body of the phase sweep at the end of `poll`
(`chain.ts` lines 495-511): resolved or cancelled tasks are skipped,
an unset start marker gives phase 0, otherwise the phase is derived
from `now` and the fixed commit/reveal windows. -/
def sweepTask (now : Nat) (t : CachedTask) : CachedTask :=
  if t.resolved || t.cancelled then t
  else if t.deliberationStart = 0 then { t with phase := 0 }
  else
    let delibEnd := t.deliberationStart + t.deliberationDuration
    let commitEnd := delibEnd + COMMIT_DURATION
    let revealEnd := commitEnd + REVEAL_DURATION
    if now ≥ revealEnd then { t with phase := 4 }
    else if now ≥ commitEnd then { t with phase := 3 }
    else if now ≥ delibEnd then { t with phase := 2 }
    else { t with phase := 1 }

/-- The whole `for (const task of tasks.values())` phase sweep. -/
def sweepAll (now : Nat) (m : TaskMap) : TaskMap :=
  m.map (sweepTask now)

/-- Modelled from the spec (§4.3 Phase Clock): the phase the spec says a
read derives from wall-clock time — cancelled or resolved gives Resolved
(4), an unset start marker gives Open (0), otherwise the fixed
commit/reveal windows after `deliberationStart + deliberationDuration`
decide the phase. Used as the reference side of the refinement claim
about query responses. -/
def phaseClockSpec (t : CachedTask) (now : Nat) : Nat :=
  if t.cancelled || t.resolved then 4
  else if t.deliberationStart = 0 then 0
  else
    let delibEnd := t.deliberationStart + t.deliberationDuration
    let commitEnd := delibEnd + COMMIT_DURATION
    let revealEnd := commitEnd + REVEAL_DURATION
    if now ≥ revealEnd then 4
    else if now ≥ commitEnd then 3
    else if now ≥ delibEnd then 2
    else 1

/-- Poller state: the `lastBlock` height and the task cache mutated by
`processLog` (`let lastBlock = 0n` and the `tasks` map in `chain.ts`). -/
structure RelayState where
  tasks : TaskMap
  lastBlock : Nat
  deriving DecidableEq, Repr

/-- `MAX_RANGE` from `poll` in `chain.ts`. -/
def MAX_RANGE : Nat := 100

/-- The start points visited by the paginated loop of `poll`
(`for (let start = fromBlock; start <= currentBlock; start += MAX_RANGE + 1n)`):
`start, start + 101, ...` for as long as they stay `≤ currentBlock`. -/
def rangeStarts (currentBlock start : Nat) : List Nat :=
  (List.range ((currentBlock + 1 - start + MAX_RANGE) / (MAX_RANGE + 1))).map
    (fun k => start + k * (MAX_RANGE + 1))

/-- The body of the paginated sub-range loop of `poll`, iterating over
the listed start points.  `fetch a b` models
`client.getLogs({fromBlock: a, toBlock: b})`, with `none` for a thrown
network error.  Returns the cache after the sub-ranges processed so far,
the trace of events fed to `processLog` (in order), and whether every
sub-range succeeded; a `none` fetch aborts the loop (the thrown
exception), keeping the mutations already made. -/
def pollRangesGo (fetch : Nat → Nat → Option (List Event)) (currentBlock : Nat) :
    List Nat → TaskMap → TaskMap × List Event × Bool
  | [], m => (m, [], true)
  | s :: rest, m =>
    let e := if s + MAX_RANGE > currentBlock then currentBlock else s + MAX_RANGE
    match fetch s e with
    | none => (m, [], false)
    | some logs =>
        let m2 := logs.foldl (fun acc ev => processLog ev acc) m
        let r := pollRangesGo fetch currentBlock rest m2
        (r.1, logs ++ r.2.1, r.2.2)

/-- The whole paginated sub-range loop of `poll`: visit every sub-range
start point from `start` up to `currentBlock` in steps of
`MAX_RANGE + 1`. -/
def pollRanges (fetch : Nat → Nat → Option (List Event)) (currentBlock start : Nat)
    (m : TaskMap) : TaskMap × List Event × Bool :=
  pollRangesGo fetch currentBlock (rangeStarts currentBlock start) m

/-- One `poll` tick from `chain.ts` (lines 466-517): if the chain height
advanced, fetch `(lastBlock, currentBlock]` in sub-ranges of at most
`MAX_RANGE + 1` blocks and apply each log; `lastBlock` is set to
`currentBlock` only after every sub-range succeeded, and a thrown fetch
is caught, leaving `lastBlock` unchanged and skipping the phase sweep
(the sweep runs inside the same `try`).  Returns the new state and the
trace of events applied this tick. -/
def poll (fetch : Nat → Nat → Option (List Event)) (currentBlock nowSec : Nat)
    (st : RelayState) : RelayState × List Event :=
  if currentBlock > st.lastBlock then
    let r := pollRanges fetch currentBlock (st.lastBlock + 1) st.tasks
    if r.2.2 then
      ({ tasks := sweepAll nowSec r.1, lastBlock := currentBlock }, r.2.1)
    else
      ({ tasks := r.1, lastBlock := st.lastBlock }, r.2.1)
  else
    ({ tasks := sweepAll nowSec st.tasks, lastBlock := st.lastBlock }, [])

/-! ## Deliberation message store (`store.ts`) -/

/-- One stored deliberation message (`interface Message`). -/
structure Message where
  taskId : Nat
  sender : String
  content : String
  timestamp : Nat
  signature : String
  deriving DecidableEq, Repr

/-- `MAX_MESSAGES_PER_TASK` from `store.ts`. -/
def MAX_MESSAGES_PER_TASK : Nat := 500

/-- `const messages = new Map<number, Message[]>()`, as an
insertion-ordered association list. -/
abbrev MsgStore := List (Nat × List Message)

/-- `messages.get(taskId) ?? []` (`getMessages`). -/
def getMessages : MsgStore → Nat → List Message
  | [], _ => []
  | (k, v) :: rest, i => if k = i then v else getMessages rest i

/-- `messages.set(taskId, list)`. -/
def setMessages : MsgStore → Nat → List Message → MsgStore
  | [], i, v => [(i, v)]
  | (k, w) :: rest, i, v => if k = i then (i, v) :: rest else (k, w) :: setMessages rest i v

/-- `addMessage` from `store.ts`: silently drop the message once the
per-task cap is reached, otherwise append it (the durable `persist()`
call has no effect on the in-memory store). -/
def addMessage (s : MsgStore) (msg : Message) : MsgStore :=
  let list := getMessages s msg.taskId
  if list.length ≥ MAX_MESSAGES_PER_TASK then s
  else setMessages s msg.taskId (list ++ [msg])

/-! ## Rate limiter and message route (`routes.ts`) -/

/-- `MSG_RATE_WINDOW` (one minute, in milliseconds). -/
def MSG_RATE_WINDOW : Nat := 60000

/-- `MSG_RATE_LIMIT` (max messages per sender per window). -/
def MSG_RATE_LIMIT : Nat := 20

/-- One entry of `rateBuckets`: `{ count, resetAt }`. -/
structure Bucket where
  count : Nat
  resetAt : Nat
  deriving DecidableEq, Repr

/-- `const rateBuckets = new Map<string, {count, resetAt}>()`. -/
abbrev Buckets := List (String × Bucket)

/-- `rateBuckets.get(sender)`. -/
def bucketsGet : Buckets → String → Option Bucket
  | [], _ => none
  | (k, b) :: rest, s => if k = s then some b else bucketsGet rest s

/-- `rateBuckets.set(sender, b)`. -/
def bucketsSet : Buckets → String → Bucket → Buckets
  | [], s, b => [(s, b)]
  | (k, c) :: rest, s, b => if k = s then (s, b) :: rest else (k, c) :: bucketsSet rest s b

/-- `isRateLimited(sender)` from `routes.ts`, with the `Date.now()` value
and the mutated bucket map made explicit: a missing or expired bucket is
replaced by `{count: 1, resetAt: now + window}` and the call is not
limited; otherwise the count is incremented (and persisted) and the call
is limited exactly when the new count exceeds the limit. -/
def isRateLimited (now : Nat) (sender : String) (bs : Buckets) : Bool × Buckets :=
  match bucketsGet bs sender with
  | none => (false, bucketsSet bs sender ⟨1, now + MSG_RATE_WINDOW⟩)
  | some b =>
      if now ≥ b.resetAt then (false, bucketsSet bs sender ⟨1, now + MSG_RATE_WINDOW⟩)
      else
        let b2 : Bucket := ⟨b.count + 1, b.resetAt⟩
        (decide (b2.count > MSG_RATE_LIMIT), bucketsSet bs sender b2)

/-- The result of JavaScript `Number(raw)` on the `:id` route parameter:
an integer value, a finite non-integral number, or `NaN`. -/
inductive JsNumber where
  | intVal (n : Int)
  | nonIntegral
  | nan
  deriving DecidableEq, Repr

/-- `parseId` from `routes.ts`: `null` unless `Number(raw)` is a
non-negative integer. -/
def parseId : JsNumber → Option Nat
  | .intVal n => if n < 0 then none else some n.toNat
  | .nonIntegral => none
  | .nan => none

/-- `MAX_CONTENT_LENGTH` from `routes.ts`. -/
def MAX_CONTENT_LENGTH : Nat := 2000

/-- JavaScript `s.toLowerCase()`, character-wise (the addresses compared
here are ASCII hex strings). -/
def lowerStr (s : String) : String := String.mk (s.data.map Char.toLower)

/-- A field of the JSON request body, as destructured by the route:
absent, present but not a string (split by JavaScript truthiness), or a
string. -/
inductive Field where
  | missing
  | nonStringFalsy
  | nonStringTruthy
  | str (s : String)
  deriving DecidableEq, Repr

/-- JavaScript falsiness of a body field (`!content` etc.): absent
values, falsy non-strings (`0`, `false`, `null`) and the empty string. -/
def Field.isFalsy : Field → Bool
  | .missing => true
  | .nonStringFalsy => true
  | .nonStringTruthy => false
  | .str s => s.isEmpty

/-- The string value of a body field, when it is one. -/
def Field.asString : Field → Option String
  | .str s => some s
  | _ => none

/-- `[0-9a-fA-F]`. -/
def isHexDigit (c : Char) : Bool :=
  c.isDigit || ('a' ≤ c && c ≤ 'f') || ('A' ≤ c && c ≤ 'F')

/-- The signature format regex `/^0x[0-9a-fA-F]{130}$/`. -/
def isSigFormat (s : String) : Bool :=
  match s.data with
  | '0' :: 'x' :: rest => rest.length = 130 && rest.all isHexDigit
  | _ => false

/-- The sender format regex `/^0x[0-9a-fA-F]{40}$/`. -/
def isAddrFormat (s : String) : Bool :=
  match s.data with
  | '0' :: 'x' :: rest => rest.length = 40 && rest.all isHexDigit
  | _ => false

/-- Outcome of `verifyMessage` for one request: recovered and matched,
recovered but mismatched (`valid === false`), or threw. -/
inductive VerifyOutcome where
  | valid
  | invalid
  | threw
  deriving DecidableEq, Repr

/-- The response produced by `POST /tasks/:id/messages`, one constructor
per distinct rejection (with its HTTP status in the comment). -/
inductive PostResult where
  | invalidTaskId                -- 400 "Invalid task ID"
  | taskNotFound                 -- 404 "Task not found"
  | missingFields                -- 400 "Missing content, signature, or sender"
  | badContent                   -- 400 content not a string / too long
  | badSignatureFormat           -- 400 "Invalid signature format"
  | badSenderFormat              -- 400 "Invalid sender address"
  | rateLimited                  -- 429 "Rate limit exceeded"
  | invalidSignature             -- 401 "Invalid signature"
  | sigVerifyThrew               -- 401 "Signature verification failed"
  | notMember                    -- 403 sender not a registered agent
  | created (m : Message)        -- 201, the stored message echoed back
  deriving DecidableEq, Repr

/-- The `POST /tasks/:id/messages` handler from `routes.ts`, with the
signature-verification primitive (`verifyMessage` over the payload
`JSON.stringify({taskId, content})`) abstracted as the oracle `verify`
and `Date.now()` as `nowMs`.  Returns the response together with the
rate-bucket map and message store after the request. -/
def handlePostMessage (tasks : TaskMap) (buckets : Buckets) (msgs : MsgStore)
    (verify : Nat → String → String → String → VerifyOutcome)
    (nowMs : Nat) (rawId : JsNumber) (content signature sender : Field) :
    PostResult × Buckets × MsgStore :=
  match parseId rawId with
  | none => (.invalidTaskId, buckets, msgs)
  | some taskId =>
    match lookupTask tasks taskId with
    | none => (.taskNotFound, buckets, msgs)
    | some task =>
      if content.isFalsy || signature.isFalsy || sender.isFalsy then
        (.missingFields, buckets, msgs)
      else
        match content.asString with
        | none => (.badContent, buckets, msgs)
        | some c =>
          if c.length > MAX_CONTENT_LENGTH then (.badContent, buckets, msgs)
          else
            match signature.asString with
            | none => (.badSignatureFormat, buckets, msgs)
            | some sig =>
              if ¬ isSigFormat sig then (.badSignatureFormat, buckets, msgs)
              else
                match sender.asString with
                | none => (.badSenderFormat, buckets, msgs)
                | some sdr =>
                  if ¬ isAddrFormat sdr then (.badSenderFormat, buckets, msgs)
                  else
                    let rl := isRateLimited nowMs (lowerStr sdr) buckets
                    if rl.1 then (.rateLimited, rl.2, msgs)
                    else
                      match verify taskId c sig sdr with
                      | .threw => (.sigVerifyThrew, rl.2, msgs)
                      | .invalid => (.invalidSignature, rl.2, msgs)
                      | .valid =>
                        if task.agents.any (fun a => lowerStr a == lowerStr sdr) then
                          let m : Message :=
                            ⟨taskId, lowerStr sdr, c, nowMs, sig⟩
                          (.created m, rl.2, addMessage msgs m)
                        else (.notMember, rl.2, msgs)

/-! ## Basic lemmas about the task map -/

lemma lookupTask_id {m : TaskMap} {i : Nat} {t : CachedTask}
    (h : lookupTask m i = some t) : t.id = i := by
  induction m with
  | nil => simp [lookupTask] at h
  | cons u us ih =>
    by_cases hu : u.id = i
    · simp [lookupTask, hu] at h
      exact h ▸ hu
    · simp [lookupTask, hu] at h
      exact ih h

lemma lookupTask_mem {m : TaskMap} {i : Nat} {t : CachedTask}
    (h : lookupTask m i = some t) : t ∈ m := by
  induction m with
  | nil => simp [lookupTask] at h
  | cons u us ih =>
    by_cases hu : u.id = i
    · simp [lookupTask, hu] at h
      simp [h]
    · simp [lookupTask, hu] at h
      exact List.mem_cons_of_mem _ (ih h)

lemma lookupTask_setTask_self {m : TaskMap} {i : Nat} {t' : CachedTask}
    (h : t'.id = i) : lookupTask (setTask m i t') i = some t' := by
  induction m with
  | nil => simp [setTask, lookupTask, h]
  | cons u us ih =>
    by_cases hu : u.id = i
    · simp [setTask, lookupTask, hu, h]
    · simp [setTask, lookupTask, hu, ih]

lemma mem_setTask {m : TaskMap} {i : Nat} {t' u : CachedTask}
    (h : u ∈ setTask m i t') : u ∈ m ∨ u = t' := by
  induction m with
  | nil => simp [setTask] at h; exact Or.inr h
  | cons v vs ih =>
    by_cases hv : v.id = i
    · simp [setTask, hv] at h
      rcases h with h | h
      · exact Or.inr h
      · exact Or.inl (List.mem_cons_of_mem _ h)
    · simp [setTask, hv] at h
      rcases h with h | h
      · exact Or.inl (by simp [h])
      · rcases ih h with h' | h'
        · exact Or.inl (List.mem_cons_of_mem _ h')
        · exact Or.inr h'

/-! ## Lemmas about the phase sweep -/

lemma sweepTask_id (now : Nat) (t : CachedTask) : (sweepTask now t).id = t.id := by
  unfold sweepTask
  split
  · rfl
  · split
    · rfl
    · dsimp only
      split
      · rfl
      · split
        · rfl
        · split <;> rfl

lemma sweepTask_resolved (now : Nat) (t : CachedTask) :
    (sweepTask now t).resolved = t.resolved := by
  unfold sweepTask
  split
  · rfl
  · split
    · rfl
    · dsimp only
      split
      · rfl
      · split
        · rfl
        · split <;> rfl

lemma sweepTask_cancelled (now : Nat) (t : CachedTask) :
    (sweepTask now t).cancelled = t.cancelled := by
  unfold sweepTask
  split
  · rfl
  · split
    · rfl
    · dsimp only
      split
      · rfl
      · split
        · rfl
        · split <;> rfl

lemma lookupTask_sweepAll (now : Nat) (m : TaskMap) (id : Nat) :
    lookupTask (sweepAll now m) id = (lookupTask m id).map (sweepTask now) := by
  induction m with
  | nil => rfl
  | cons u us ih =>
    by_cases hu : u.id = id
    · simp [sweepAll, lookupTask, sweepTask_id, hu]
    · simp [sweepAll, lookupTask, sweepTask_id, hu] at ih ⊢
      exact ih

lemma sweepTask_phase_eq_clock (now : Nat) (t : CachedTask)
    (hr : t.resolved = false) (hc : t.cancelled = false) :
    (sweepTask now t).phase = phaseClockSpec (sweepTask now t) now := by
  unfold sweepTask phaseClockSpec
  simp only [hr, hc, Bool.or_self, Bool.false_eq_true, if_false]
  by_cases h0 : t.deliberationStart = 0
  · simp [h0]
  · simp only [h0, if_false]
    by_cases h4 : now ≥ t.deliberationStart + t.deliberationDuration + COMMIT_DURATION + REVEAL_DURATION
    · simp [h4, hr, hc, h0]
    · simp only [h4, if_false]
      by_cases h3 : now ≥ t.deliberationStart + t.deliberationDuration + COMMIT_DURATION
      · simp [h3, h4, hr, hc, h0]
      · simp only [h3, if_false]
        by_cases h2 : now ≥ t.deliberationStart + t.deliberationDuration
        · simp [h2, h3, h4, hr, hc, h0]
        · simp [h2, h3, h4, hr, hc, h0]

/-! ## Example fixtures -/

/-- A freshly created two-option task whose start marker was then set by a
`TaskStarted` event: `deliberationStart = 10`, stored `phase = 1`. -/
def exStore : TaskMap :=
  processLog (.taskStarted 0 10)
    (processLog (.taskCreated 0 "c" "d" ["A", "B"] "0" 2 10) [])

/-- The single task of `exStore`, written out. -/
def exTask : CachedTask :=
  { id := 0, creator := "c", description := "d", options := ["A", "B"]
    bounty := "0", requiredAgents := 2, deliberationDuration := 10
    deliberationStart := 10, cancelled := false, phase := 1
    resolved := false, winningOption := 0, isTie := false
    agents := [], revealCount := 0
    optionVotes := [some 0, some 0], reveals := [] }

/-- A capacity-1 task that already holds its one agent. -/
def capStore : TaskMap :=
  processLog (.agentJoined 0 "a")
    (processLog (.taskCreated 0 "c" "d" ["A", "B"] "0" 1 10) [])

/-- The single task of `capStore`, written out. -/
def capTask : CachedTask :=
  { id := 0, creator := "c", description := "d", options := ["A", "B"]
    bounty := "0", requiredAgents := 1, deliberationDuration := 10
    deliberationStart := 0, cancelled := false, phase := 0
    resolved := false, winningOption := 0, isTie := false
    agents := ["a"], revealCount := 0
    optionVotes := [some 0, some 0], reveals := [] }

/-- `exStore` after a `TaskResolved` event. -/
def resStore : TaskMap := processLog (.taskResolved 0 0 false) exStore

/-- The single task of `resStore`, written out. -/
def resTask : CachedTask :=
  { exTask with resolved := true, winningOption := 0, isTie := false, phase := 4 }

/-! ## C1 — queries and the Phase Clock -/

/-- Claim C1 (refuted): it is not the case that every task returned by
`getTask` carries the phase the Phase Clock derives from the wall-clock
time of the read.  `exStore` holds a started task with stored phase 1,
while at `now = 1000` the Phase Clock yields 4. -/
theorem queries_not_phase_adjusted :
    ¬ (∀ (m : TaskMap) (id : Nat) (t : CachedTask) (now : Nat),
        getTask m id = some t → t.phase = phaseClockSpec t now) := by
  intro h
  have := h exStore 0 exTask 1000 (by decide)
  exact absurd this (by decide)

lemma mem_insertByIdDesc {t u : CachedTask} {l : List CachedTask}
    (h : u ∈ insertByIdDesc t l) : u = t ∨ u ∈ l := by
  induction l with
  | nil => simpa [insertByIdDesc] using h
  | cons v vs ih =>
    by_cases hv : v.id ≤ t.id
    · simpa [insertByIdDesc, hv] using h
    · simp only [insertByIdDesc, hv, if_false, List.mem_cons] at h
      rcases h with h | h
      · exact Or.inr (by simp [h])
      · rcases ih h with h' | h'
        · exact Or.inl h'
        · exact Or.inr (List.mem_cons_of_mem _ h')

lemma mem_getAllTasks {m : TaskMap} {u : CachedTask} (h : u ∈ getAllTasks m) :
    u ∈ m := by
  induction m with
  | nil => simp [getAllTasks] at h
  | cons v vs ih =>
    simp only [getAllTasks, List.foldr_cons] at h
    rcases mem_insertByIdDesc h with h' | h'
    · simp [h']
    · exact List.mem_cons_of_mem _ (ih h')

/-- C1 (amended): `getTask` and `getAllTasks` return the stored records
unchanged; the stored phase reflects the wall-clock time of the last
completed poll sweep, not of the read — after a sweep at time `now`,
both query operations return, for every non-resolved, non-cancelled
task, a record whose phase equals the Phase Clock phase at `now`. -/
theorem queries_after_sweep_phase_adjusted :
    (∀ (m : TaskMap) (now id : Nat) (t : CachedTask),
        getTask (sweepAll now m) id = some t →
        t.resolved = false → t.cancelled = false →
          t.phase = phaseClockSpec t now) ∧
    (∀ (m : TaskMap) (now : Nat) (t : CachedTask),
        t ∈ getAllTasks (sweepAll now m) →
        t.resolved = false → t.cancelled = false →
          t.phase = phaseClockSpec t now) := by
  constructor
  · intro m now id t h hr hc
    rw [getTask, lookupTask_sweepAll] at h
    rcases Option.map_eq_some'.mp h with ⟨t0, _ht0, rfl⟩
    exact sweepTask_phase_eq_clock now t0
      (by rw [sweepTask_resolved] at hr; exact hr)
      (by rw [sweepTask_cancelled] at hc; exact hc)
  · intro m now t h hr hc
    have hm : t ∈ sweepAll now m := mem_getAllTasks h
    rcases List.mem_map.mp hm with ⟨t0, _ht0, rfl⟩
    exact sweepTask_phase_eq_clock now t0
      (by rw [sweepTask_resolved] at hr; exact hr)
      (by rw [sweepTask_cancelled] at hc; exact hc)

/-- Witness for C1's amended theorem at `exStore`, `now = 1000`. -/
theorem queries_after_sweep_phase_adjusted_witness :
    (({ exTask with phase := 4 } : CachedTask).phase =
      phaseClockSpec { exTask with phase := 4 } 1000) ∧
    (({ exTask with phase := 4 } : CachedTask).phase =
      phaseClockSpec { exTask with phase := 4 } 1000) :=
  ⟨queries_after_sweep_phase_adjusted.1 exStore 1000 0 { exTask with phase := 4 }
    (by decide) (by decide) (by decide),
   queries_after_sweep_phase_adjusted.2 exStore 1000 { exTask with phase := 4 }
    (by decide) (by decide) (by decide)⟩

/-! ## C2 — idempotence of event application -/

lemma lookupTask_after_reveal {m : TaskMap} {id : Nat} {a : String} {i : Nat}
    {t : CachedTask} (ht : lookupTask m id = some t) :
    lookupTask (processLog (.revealSubmitted id a i) m) id =
      some { t with
             revealCount := t.revealCount + 1
             optionVotes := jsWrite t.optionVotes i (jsRead t.optionVotes i + 1)
             reveals := t.reveals ++ [⟨a, i⟩] } := by
  have hid := lookupTask_id ht
  simp only [processLog, ht]
  exact lookupTask_setTask_self (by simpa using hid)

/-- Claim C2 (refuted): event application is not idempotent for every
event kind — applying the same `RevealSubmitted` event twice to
`exStore` gives reveal counter 2 where applying it once gives 1. -/
theorem event_application_not_idempotent :
    ¬ (∀ (m : TaskMap) (e : Event), processLog e (processLog e m) = processLog e m) := by
  intro h
  have := h exStore (.revealSubmitted 0 "a" 0)
  exact absurd this (by decide)

/-- C2 (amended): applying the same `AgentJoined` event twice yields the
same state as applying it once, but applying the same `RevealSubmitted`
event twice to a cached task increments the reveal counter and appends a
reveal record a second time. -/
theorem agentJoined_idempotent_revealSubmitted_not :
    (∀ (m : TaskMap) (id : Nat) (a : String),
        processLog (.agentJoined id a) (processLog (.agentJoined id a) m) =
          processLog (.agentJoined id a) m) ∧
    (∀ (m : TaskMap) (id : Nat) (a : String) (i : Nat) (t : CachedTask),
        lookupTask m id = some t →
          (lookupTask (processLog (.revealSubmitted id a i)
              (processLog (.revealSubmitted id a i) m)) id).map
            (fun u => (u.revealCount, u.reveals.length)) =
            some (t.revealCount + 2, t.reveals.length + 2)) := by
  constructor
  · intro m id a
    cases hm : lookupTask m id with
    | none => simp [processLog, hm]
    | some t =>
      by_cases ha : a ∈ t.agents
      · simp [processLog, hm, ha]
      · have hid : t.id = id := lookupTask_id hm
        have h2 : lookupTask (setTask m id { t with agents := t.agents ++ [a] }) id =
            some { t with agents := t.agents ++ [a] } :=
          lookupTask_setTask_self (by simpa using hid)
        simp [processLog, hm, ha, h2]
  · intro m id a i t ht
    have h1 := lookupTask_after_reveal (a := a) (i := i) ht
    have h2 := lookupTask_after_reveal (a := a) (i := i) h1
    rw [h2]
    simp

/-- Witness for C2's amended theorem: double reveal on `exStore`. -/
theorem agentJoined_idempotent_revealSubmitted_not_witness :
    (processLog (.agentJoined 0 "a") (processLog (.agentJoined 0 "a") exStore) =
        processLog (.agentJoined 0 "a") exStore) ∧
    ((lookupTask (processLog (.revealSubmitted 0 "a" 0)
        (processLog (.revealSubmitted 0 "a" 0) exStore)) 0).map
      (fun u => (u.revealCount, u.reveals.length)) = some (0 + 2, 0 + 2)) :=
  ⟨agentJoined_idempotent_revealSubmitted_not.1 exStore 0 "a",
   agentJoined_idempotent_revealSubmitted_not.2 exStore 0 "a" 0 exTask (by decide)⟩

/-! ## C5 — AgentJoined semantics -/

/-- Claim C5 (refuted): `applyAgentJoined` is claimed to be a no-op when
the task's capacity is already reached, but `processLog` performs no
capacity check: joining a new agent to the full capacity-1 task of
`capStore` appends it anyway. -/
theorem agentJoined_capacity_not_checked :
    ¬ (∀ (m : TaskMap) (id : Nat) (a : String) (t : CachedTask),
        lookupTask m id = some t → t.requiredAgents ≤ t.agents.length →
          processLog (.agentJoined id a) m = m) := by
  intro h
  have := h capStore 0 "b" capTask (by decide) (by decide)
  exact absurd this (by decide)

/-- C5 (amended): `applyAgentJoined` is a no-op exactly when the task is
missing or the agent is already a member — capacity is not checked, so a
join beyond `requiredAgents` still appends; and no agent address ever
appears twice in a task's agent list. -/
theorem agentJoined_characterization :
    (∀ (m : TaskMap) (id : Nat) (a : String),
        lookupTask m id = none → processLog (.agentJoined id a) m = m) ∧
    (∀ (m : TaskMap) (id : Nat) (a : String) (t : CachedTask),
        lookupTask m id = some t → a ∈ t.agents → processLog (.agentJoined id a) m = m) ∧
    (∀ (m : TaskMap) (id : Nat) (a : String) (t : CachedTask),
        lookupTask m id = some t → a ∉ t.agents →
          lookupTask (processLog (.agentJoined id a) m) id =
            some { t with agents := t.agents ++ [a] }) ∧
    (∀ (m : TaskMap) (id : Nat) (a : String),
        (∀ t ∈ m, t.agents.Nodup) →
          ∀ u ∈ processLog (.agentJoined id a) m, u.agents.Nodup) := by
  refine ⟨fun m id a h => by simp [processLog, h],
    fun m id a t ht ha => by simp [processLog, ht, ha],
    fun m id a t ht ha => ?_, fun m id a hinv u hu => ?_⟩
  · have hid := lookupTask_id ht
    simp only [processLog, ht, ha, if_false]
    exact lookupTask_setTask_self (by simpa using hid)
  · rcases hm : lookupTask m id with _ | t
    · rw [processLog] at hu
      simp only [hm] at hu
      exact hinv u hu
    · by_cases ha : a ∈ t.agents
      · rw [processLog] at hu
        simp only [hm, ha, if_true] at hu
        exact hinv u hu
      · rw [processLog] at hu
        simp only [hm, ha, if_false] at hu
        rcases mem_setTask hu with h' | h'
        · exact hinv u h'
        · subst h'
          simpa [List.nodup_append] using ⟨hinv t (lookupTask_mem hm), ha⟩

/-- Witness for C5's amended theorem at `capStore`. -/
theorem agentJoined_characterization_witness :
    (processLog (.agentJoined 7 "a") capStore = capStore) ∧
    (processLog (.agentJoined 0 "a") capStore = capStore) ∧
    (lookupTask (processLog (.agentJoined 0 "b") capStore) 0 =
      some { capTask with agents := capTask.agents ++ ["b"] }) ∧
    (∀ u ∈ processLog (.agentJoined 0 "b") capStore, u.agents.Nodup) :=
  ⟨agentJoined_characterization.1 capStore 7 "a" (by decide),
   agentJoined_characterization.2.1 capStore 0 "a" capTask (by decide) (by decide),
   agentJoined_characterization.2.2.1 capStore 0 "b" capTask (by decide) (by decide),
   agentJoined_characterization.2.2.2 capStore 0 "b" (by decide)⟩

/-! ## C6 — resolution and cancellation -/

/-- Claim C6 (refuted): a resolved task is not immutable — applying a
`RevealSubmitted` event to the resolved task of `resStore` still
increments its reveal counter. -/
theorem resolved_task_still_mutated :
    ¬ (∀ (m : TaskMap) (id : Nat) (t : CachedTask) (a : String) (i : Nat),
        lookupTask m id = some t → t.resolved = true →
          processLog (.revealSubmitted id a i) m = m) := by
  intro h
  have := h resStore 0 resTask "z" 0 (by decide) (by decide)
  exact absurd this (by decide)

/-- C6 (amended): once the resolution or cancellation flag is set the
phase sweep leaves the task untouched (so the phase 4 written by
`TaskResolved`/`TaskCancelled` persists for all later sweep times), but
subsequent `RevealSubmitted`/`AgentJoined` events still mutate the task. -/
theorem resolved_absorbs_sweep_only :
    (∀ (now : Nat) (t : CachedTask),
        t.resolved = true ∨ t.cancelled = true → sweepTask now t = t) ∧
    (∀ (m : TaskMap) (id w : Nat) (tie : Bool) (t : CachedTask),
        lookupTask m id = some t →
          lookupTask (processLog (.taskResolved id w tie) m) id =
            some { t with resolved := true, winningOption := w, isTie := tie, phase := 4 }) ∧
    (∀ (m : TaskMap) (id : Nat) (c : String) (r : Nat) (t : CachedTask),
        lookupTask m id = some t →
          lookupTask (processLog (.taskCancelled id c r) m) id =
            some { t with cancelled := true, phase := 4 }) := by
  refine ⟨fun now t h => ?_, fun m id w tie t ht => ?_, fun m id c r t ht => ?_⟩
  · rcases h with h | h <;> simp [sweepTask, h]
  · have hid := lookupTask_id ht
    simp only [processLog, ht]
    exact lookupTask_setTask_self (by simpa using hid)
  · have hid := lookupTask_id ht
    simp only [processLog, ht]
    exact lookupTask_setTask_self (by simpa using hid)

/-- Witness for C6's amended theorem at `resStore` and `exStore`. -/
theorem resolved_absorbs_sweep_only_witness :
    (sweepTask 99999 resTask = resTask) ∧
    (lookupTask (processLog (.taskResolved 0 0 false) exStore) 0 =
      some { exTask with resolved := true, winningOption := 0, isTie := false, phase := 4 }) ∧
    (lookupTask (processLog (.taskCancelled 0 "c" 5) exStore) 0 =
      some { exTask with cancelled := true, phase := 4 }) :=
  ⟨resolved_absorbs_sweep_only.1 99999 resTask (Or.inl (by decide)),
   resolved_absorbs_sweep_only.2.1 exStore 0 0 false exTask (by decide),
   resolved_absorbs_sweep_only.2.2 exStore 0 "c" 5 exTask (by decide)⟩

/-! ## C3 — out-of-range reveals -/

lemma jsWrite_length_of_le {a : List (Option Nat)} {i : Nat} (v : Nat)
    (h : a.length ≤ i) : (jsWrite a i v).length = i + 1 := by
  simp only [jsWrite, Nat.not_lt.mpr h, if_false]
  simp only [List.length_append, List.length_replicate, List.length_singleton]
  omega

lemma jsWrite_length_of_lt {a : List (Option Nat)} {i : Nat} (v : Nat)
    (h : i < a.length) : (jsWrite a i v).length = a.length := by
  simp [jsWrite, h]

/-- Claim C3 (refuted): a reveal whose option index is out of bounds for
the task's option list is not a no-op — on the two-option task of
`exStore`, a reveal at index 5 still increments the reveal counter (and
grows the vote tally array). -/
theorem out_of_range_reveal_not_noop :
    ¬ (∀ (m : TaskMap) (id : Nat) (a : String) (i : Nat) (t : CachedTask),
        lookupTask m id = some t → t.options.length ≤ i →
          processLog (.revealSubmitted id a i) m = m) := by
  intro h
  have := h exStore 0 "a" 5 exTask (by decide) (by decide)
  exact absurd this (by decide)

/-- C3 (amended): an out-of-range option index is not rejected — the
reveal still increments the reveal counter, appends its record, and
grows the vote tally array to length `optionIndex + 1` (padding with
holes); the tally array keeps its length only for in-range indices, so
its length equals the option count only while every applied reveal is in
range. -/
theorem out_of_range_reveal_grows_tally :
    (∀ (m : TaskMap) (id : Nat) (a : String) (i : Nat) (t : CachedTask),
        lookupTask m id = some t → t.optionVotes.length ≤ i →
          (lookupTask (processLog (.revealSubmitted id a i) m) id).map
            (fun u => (u.revealCount, u.optionVotes.length, u.reveals.length)) =
            some (t.revealCount + 1, i + 1, t.reveals.length + 1)) ∧
    (∀ (m : TaskMap) (id : Nat) (a : String) (i : Nat) (t : CachedTask),
        lookupTask m id = some t → i < t.optionVotes.length →
          (lookupTask (processLog (.revealSubmitted id a i) m) id).map
            (fun u => u.optionVotes.length) = some t.optionVotes.length) := by
  constructor
  · intro m id a i t ht hi
    rw [lookupTask_after_reveal ht]
    simp [jsWrite_length_of_le _ hi]
  · intro m id a i t ht hi
    rw [lookupTask_after_reveal ht]
    simp [jsWrite_length_of_lt _ hi]

/-- Witness for C3's amended theorem: reveals at indices 5 (out of
range) and 0 (in range) on `exStore`. -/
theorem out_of_range_reveal_grows_tally_witness :
    ((lookupTask (processLog (.revealSubmitted 0 "a" 5) exStore) 0).map
        (fun u => (u.revealCount, u.optionVotes.length, u.reveals.length)) =
      some (0 + 1, 5 + 1, 0 + 1)) ∧
    ((lookupTask (processLog (.revealSubmitted 0 "a" 0) exStore) 0).map
        (fun u => u.optionVotes.length) = some 2) :=
  ⟨out_of_range_reveal_grows_tally.1 exStore 0 "a" 5 exTask (by decide) (by decide),
   out_of_range_reveal_grows_tally.2 exStore 0 "a" 0 exTask (by decide) (by decide)⟩

/-! ## C4 — tally consistency -/

/-- Sum of a JavaScript vote tally array, holes reading as 0 (the sum of
`optionVotes[i] ?? 0` over the array). -/
def tallySum (a : List (Option Nat)) : Nat :=
  (a.map (fun o => o.getD 0)).sum

lemma tallySum_set_succ (a : List (Option Nat)) (i : Nat) (h : i < a.length) :
    tallySum (a.set i (some (jsRead a i + 1))) = tallySum a + 1 := by
  induction a generalizing i with
  | nil => simp at h
  | cons o rest ih =>
    cases i with
    | zero =>
      simp only [List.set, tallySum, List.map, List.sum_cons, Option.getD_some]
      have : jsRead (o :: rest) 0 = o.getD 0 := rfl
      rw [this]
      omega
    | succ i =>
      have hlen : i < rest.length := by simpa using h
      have hr : jsRead (o :: rest) (i + 1) = jsRead rest i := rfl
      simp only [List.set, tallySum, List.map, List.sum_cons, hr]
      have := ih i hlen
      simp only [tallySum] at this
      omega

lemma tallySum_jsWrite_succ (a : List (Option Nat)) (i : Nat) :
    tallySum (jsWrite a i (jsRead a i + 1)) = tallySum a + 1 := by
  by_cases h : i < a.length
  · simp only [jsWrite, h, if_true]
    exact tallySum_set_succ a i h
  · simp only [jsWrite, h, if_false]
    have hr : jsRead a i = 0 := by
      have hn : a.get? i = none := List.get?_eq_none.mpr (Nat.le_of_not_lt h)
      rw [jsRead, hn]
      rfl
    rw [hr]
    simp [tallySum]

/-- The tally invariant of §3 of the spec: the stored reveal counter
equals the sum of the per-option tallies. -/
def tallyInv (t : CachedTask) : Prop :=
  t.revealCount = tallySum t.optionVotes

lemma tallyInv_preserved {m : TaskMap} {id : Nat} {a : String} {i : Nat}
    (h : ∀ t ∈ m, tallyInv t) :
    ∀ t ∈ processLog (.revealSubmitted id a i) m, tallyInv t := by
  intro u hu
  rcases hm : lookupTask m id with _ | t
  · rw [processLog] at hu
    simp only [hm] at hu
    exact h u hu
  · rw [processLog] at hu
    simp only [hm] at hu
    rcases mem_setTask hu with h' | h'
    · exact h u h'
    · subst h'
      have hinv := h t (lookupTask_mem hm)
      simp only [tallyInv] at hinv ⊢
      simp [tallySum_jsWrite_succ, hinv]

/-- Claim C4 (confirmed): starting from a freshly created task, after
any sequence of `RevealSubmitted` applications the stored reveal counter
of every cached task equals the sum of its per-option vote tallies. -/
theorem revealCount_eq_tallySum (id : Nat) (creator desc : String)
    (opts : List String) (bounty : String) (req dur : Nat)
    (revs : List (Nat × String × Nat)) :
    ∀ t ∈ revs.foldl (fun s r => processLog (.revealSubmitted r.1 r.2.1 r.2.2) s)
        (processLog (.taskCreated id creator desc opts bounty req dur) []),
      t.revealCount = tallySum t.optionVotes := by
  have base : ∀ t ∈ processLog (.taskCreated id creator desc opts bounty req dur) ([] : TaskMap),
      tallyInv t := by
    intro t ht
    simp only [processLog, setTask] at ht
    rcases List.mem_singleton.mp ht with rfl
    simp [tallyInv, tallySum]
  have main : ∀ (l : List (Nat × String × Nat)) (s : TaskMap), (∀ t ∈ s, tallyInv t) →
      ∀ t ∈ l.foldl (fun s r => processLog (.revealSubmitted r.1 r.2.1 r.2.2) s) s,
        tallyInv t := by
    intro l
    induction l with
    | nil => intro s hs; simpa using hs
    | cons r rs ih =>
      intro s hs
      exact ih _ (tallyInv_preserved hs)
  exact main revs _ base

/-- The task produced by creating a two-option task and applying one
reveal at index 0 by agent "a". -/
def exC4Task : CachedTask :=
  { id := 0, creator := "c", description := "d", options := ["A", "B"]
    bounty := "0", requiredAgents := 2, deliberationDuration := 10
    deliberationStart := 0, cancelled := false, phase := 0
    resolved := false, winningOption := 0, isTie := false
    agents := [], revealCount := 1
    optionVotes := [some 1, some 0], reveals := [⟨"a", 0⟩] }

/-- Witness for C4 at a created task with one reveal. -/
theorem revealCount_eq_tallySum_witness :
    exC4Task.revealCount = tallySum exC4Task.optionVotes :=
  revealCount_eq_tallySum 0 "c" "d" ["A", "B"] "0" 2 10 [(0, "a", 0)]
    exC4Task (by decide)

/-! ## C7 — failed poll ticks and retries -/

/-- A reveal event living in the first sub-range of the C7 scenario. -/
def ev1 : Event := .revealSubmitted 0 "a" 0

/-- An event living in the second sub-range of the C7 scenario. -/
def ev2 : Event := .agentJoined 0 "q"

/-- An event living in the third sub-range of the C7 scenario. -/
def ev3 : Event := .commitSubmitted 0 "r"

/-- A fetch oracle that serves the first sub-range (blocks 1-101) and
throws on every other one — the failing tick of the C7 scenario. -/
def fetchFail : Nat → Nat → Option (List Event) :=
  fun a _ => if a = 1 then some [ev1] else none

/-- A fetch oracle serving all three sub-ranges of blocks 1-300 — the
succeeding retry tick of the C7 scenario. -/
def fetchOk : Nat → Nat → Option (List Event) :=
  fun a _ =>
    if a = 1 then some [ev1]
    else if a = 102 then some [ev2]
    else if a = 203 then some [ev3]
    else none

lemma rangeStarts_of_lt {cb start : Nat} (h : cb < start) :
    rangeStarts cb start = [] := by
  unfold rangeStarts
  rw [Nat.sub_eq_zero_of_le h]
  norm_num [MAX_RANGE]

/-- Claim C7 (refuted): with three sub-ranges spanning blocks 1-300 and
the second fetch of the first tick throwing, the last-seen height does
keep its pre-tick value (first conjunct, the true half of the claim),
but after the successful retry the events are NOT applied exactly once:
the first sub-range's reveal event appears twice in the applied-event
trace, and the task's reveal counter ends at 2 although the spanned
range holds that event only once. -/
theorem poll_retry_reapplies_succeeded_subranges :
    ((poll fetchFail 300 50 ⟨exStore, 0⟩).1.lastBlock = 0) ∧
    ¬ (((poll fetchFail 300 50 ⟨exStore, 0⟩).2 ++
        (poll fetchOk 300 50 (poll fetchFail 300 50 ⟨exStore, 0⟩).1).2).count ev1 = 1) ∧
    (((poll fetchFail 300 50 ⟨exStore, 0⟩).2 ++
        (poll fetchOk 300 50 (poll fetchFail 300 50 ⟨exStore, 0⟩).1).2).count ev1 = 2) ∧
    ((getTask (poll fetchOk 300 50 (poll fetchFail 300 50 ⟨exStore, 0⟩).1).1.tasks 0).map
        (fun t => t.revealCount) = some 2) := by
  refine ⟨by decide, by decide, by decide, by decide⟩

/-- C7 (amended): a tick whose sub-range loop fails leaves the last-seen
height at its pre-tick value while keeping the cache mutations of the
sub-ranges that succeeded before the failure; a tick whose loop succeeds
advances the height and applies exactly the fetched events — so after a
failure the next tick re-fetches from the same point and the events of
the previously succeeded sub-ranges are applied again (at-least-once
delivery, not exactly-once). -/
theorem poll_failure_keeps_lastBlock :
    (∀ (fetch : Nat → Nat → Option (List Event)) (cb now : Nat) (st : RelayState),
        (pollRanges fetch cb (st.lastBlock + 1) st.tasks).2.2 = false →
          (poll fetch cb now st).1.lastBlock = st.lastBlock ∧
          (poll fetch cb now st).1.tasks =
            (pollRanges fetch cb (st.lastBlock + 1) st.tasks).1) ∧
    (∀ (fetch : Nat → Nat → Option (List Event)) (cb now : Nat) (st : RelayState),
        st.lastBlock < cb →
        (pollRanges fetch cb (st.lastBlock + 1) st.tasks).2.2 = true →
          (poll fetch cb now st).1.lastBlock = cb ∧
          (poll fetch cb now st).2 =
            (pollRanges fetch cb (st.lastBlock + 1) st.tasks).2.1) := by
  constructor
  · intro fetch cb now st hfail
    by_cases hcb : st.lastBlock < cb
    · simp only [poll, hcb, if_pos, hfail]
      simp [hfail]
    · exfalso
      have : rangeStarts cb (st.lastBlock + 1) = [] :=
        rangeStarts_of_lt (Nat.lt_succ_of_le (Nat.le_of_not_lt hcb))
      rw [pollRanges, this] at hfail
      simp [pollRangesGo] at hfail
  · intro fetch cb now st hcb hok
    simp only [poll, hcb, if_pos, hok]
    simp [hok]

/-- Witness for C7's amended theorem at the two scenario ticks. -/
theorem poll_failure_keeps_lastBlock_witness :
    ((poll fetchFail 300 50 ⟨exStore, 0⟩).1.lastBlock = 0 ∧
      (poll fetchFail 300 50 ⟨exStore, 0⟩).1.tasks =
        (pollRanges fetchFail 300 (0 + 1) exStore).1) ∧
    ((poll fetchOk 300 50 ⟨processLog ev1 exStore, 0⟩).1.lastBlock = 300 ∧
      (poll fetchOk 300 50 ⟨processLog ev1 exStore, 0⟩).2 =
        (pollRanges fetchOk 300 (0 + 1) (processLog ev1 exStore)).2.1) :=
  ⟨poll_failure_keeps_lastBlock.1 fetchFail 300 50 ⟨exStore, 0⟩ (by decide),
   poll_failure_keeps_lastBlock.2 fetchOk 300 50 ⟨processLog ev1 exStore, 0⟩
     (by decide) (by decide)⟩

/-! ## Route fixtures -/

/-- A well-formed 132-character signature string. -/
def sigOk : String := String.mk ('0' :: 'x' :: List.replicate 130 'a')

/-- A well-formed 42-character sender address (already lower-case). -/
def sndr : String := String.mk ('0' :: 'x' :: List.replicate 40 'a')

/-- `exStore` with `sndr` joined to task 0. -/
def msgTaskStore : TaskMap := processLog (.agentJoined 0 sndr) exStore

/-- The single task of `msgTaskStore`, written out. -/
def msgTask : CachedTask := { exTask with agents := [sndr] }

/-- A verification oracle that always recovers the claimed sender. -/
def verifyAlways : Nat → String → String → String → VerifyOutcome :=
  fun _ _ _ _ => .valid

/-- A verification oracle that always reports a signer mismatch. -/
def verifyNever : Nat → String → String → String → VerifyOutcome :=
  fun _ _ _ _ => .invalid

/-- One pre-existing message on task 0. -/
def m0 : Message := ⟨0, sndr, "x", 0, sigOk⟩

/-- A message store whose task-0 list already holds the full cap of 500
messages. -/
def fullStore : MsgStore := [(0, List.replicate 500 m0)]

/-! ## C8 — validation pipeline order -/

/-- Claim C8 (refuted): a structurally invalid signature does NOT always
receive the structural rejection — when the referenced task does not
exist, the handler answers `taskNotFound` (404) before ever looking at
the malformed signature, because the task-existence check runs before
the content/signature/sender structural checks. -/
theorem structural_rejection_not_first :
    ¬ (∀ (tasks : TaskMap) (buckets : Buckets) (msgs : MsgStore)
        (verify : Nat → String → String → String → VerifyOutcome)
        (nowMs : Nat) (rawId : JsNumber) (content sender : Field)
        (sig : String) (id : Nat),
        parseId rawId = some id → isSigFormat sig = false →
          (handlePostMessage tasks buckets msgs verify nowMs rawId content
              (.str sig) sender).1 = .badSignatureFormat) := by
  intro h
  have := h [] [] [] verifyAlways 0 (.intVal 0) (.str "hello") (.str sndr)
      "nothex" 0 (by decide) (by decide)
  exact absurd this (by decide)

/-- C8 (amended): the pipeline short-circuits with one distinct
rejection per stage, in the order (1) task-id structural validation,
(2) task existence, (3) structural validation of content, signature and
sender, (4) rate limit, (5) signature authentication, (6) membership —
so a malformed body against a missing task receives the not-found
rejection, and no structural rejection consumes rate-limit quota. -/
theorem post_pipeline_order :
    (∀ (tasks : TaskMap) (buckets : Buckets) (msgs : MsgStore)
        (verify : Nat → String → String → String → VerifyOutcome)
        (nowMs : Nat) (rawId : JsNumber) (content signature sender : Field),
        parseId rawId = none →
          handlePostMessage tasks buckets msgs verify nowMs rawId content signature sender =
            (.invalidTaskId, buckets, msgs)) ∧
    (∀ (tasks : TaskMap) (buckets : Buckets) (msgs : MsgStore)
        (verify : Nat → String → String → String → VerifyOutcome)
        (nowMs : Nat) (rawId : JsNumber) (content signature sender : Field) (id : Nat),
        parseId rawId = some id → lookupTask tasks id = none →
          handlePostMessage tasks buckets msgs verify nowMs rawId content signature sender =
            (.taskNotFound, buckets, msgs)) ∧
    (∀ (tasks : TaskMap) (buckets : Buckets) (msgs : MsgStore)
        (verify : Nat → String → String → String → VerifyOutcome)
        (nowMs : Nat) (rawId : JsNumber) (content signature sender : Field)
        (id : Nat) (task : CachedTask),
        parseId rawId = some id → lookupTask tasks id = some task →
        content.isFalsy = true →
          handlePostMessage tasks buckets msgs verify nowMs rawId content signature sender =
            (.missingFields, buckets, msgs)) ∧
    (∀ (tasks : TaskMap) (buckets : Buckets) (msgs : MsgStore)
        (verify : Nat → String → String → String → VerifyOutcome)
        (nowMs : Nat) (rawId : JsNumber) (c sig sdr : String)
        (id : Nat) (task : CachedTask),
        parseId rawId = some id → lookupTask tasks id = some task →
        c.isEmpty = false → sig.isEmpty = false → sdr.isEmpty = false →
        ¬ c.length > MAX_CONTENT_LENGTH → isSigFormat sig = false →
          handlePostMessage tasks buckets msgs verify nowMs rawId (.str c) (.str sig) (.str sdr) =
            (.badSignatureFormat, buckets, msgs)) ∧
    (∀ (tasks : TaskMap) (buckets : Buckets) (msgs : MsgStore)
        (verify : Nat → String → String → String → VerifyOutcome)
        (nowMs : Nat) (rawId : JsNumber) (c sig sdr : String)
        (id : Nat) (task : CachedTask),
        parseId rawId = some id → lookupTask tasks id = some task →
        c.isEmpty = false → sig.isEmpty = false → sdr.isEmpty = false →
        ¬ c.length > MAX_CONTENT_LENGTH → isSigFormat sig = true →
        isAddrFormat sdr = false →
          handlePostMessage tasks buckets msgs verify nowMs rawId (.str c) (.str sig) (.str sdr) =
            (.badSenderFormat, buckets, msgs)) ∧
    (∀ (tasks : TaskMap) (buckets : Buckets) (msgs : MsgStore)
        (verify : Nat → String → String → String → VerifyOutcome)
        (nowMs : Nat) (rawId : JsNumber) (c sig sdr : String)
        (id : Nat) (task : CachedTask),
        parseId rawId = some id → lookupTask tasks id = some task →
        c.isEmpty = false → sig.isEmpty = false → sdr.isEmpty = false →
        ¬ c.length > MAX_CONTENT_LENGTH → isSigFormat sig = true →
        isAddrFormat sdr = true →
        (isRateLimited nowMs (lowerStr sdr) buckets).1 = true →
          handlePostMessage tasks buckets msgs verify nowMs rawId (.str c) (.str sig) (.str sdr) =
            (.rateLimited, (isRateLimited nowMs (lowerStr sdr) buckets).2, msgs)) ∧
    (∀ (tasks : TaskMap) (buckets : Buckets) (msgs : MsgStore)
        (verify : Nat → String → String → String → VerifyOutcome)
        (nowMs : Nat) (rawId : JsNumber) (c sig sdr : String)
        (id : Nat) (task : CachedTask),
        parseId rawId = some id → lookupTask tasks id = some task →
        c.isEmpty = false → sig.isEmpty = false → sdr.isEmpty = false →
        ¬ c.length > MAX_CONTENT_LENGTH → isSigFormat sig = true →
        isAddrFormat sdr = true →
        (isRateLimited nowMs (lowerStr sdr) buckets).1 = false →
        verify id c sig sdr = .valid →
        task.agents.any (fun a => lowerStr a == lowerStr sdr) = false →
          handlePostMessage tasks buckets msgs verify nowMs rawId (.str c) (.str sig) (.str sdr) =
            (.notMember, (isRateLimited nowMs (lowerStr sdr) buckets).2, msgs)) := by
  refine ⟨?_, ?_, ?_, ?_, ?_, ?_, ?_⟩
  · intro tasks buckets msgs verify nowMs rawId content signature sender hparse
    simp [handlePostMessage, hparse]
  · intro tasks buckets msgs verify nowMs rawId content signature sender id hparse hlook
    simp [handlePostMessage, hparse, hlook]
  · intro tasks buckets msgs verify nowMs rawId content signature sender id task
      hparse hlook hfal
    simp [handlePostMessage, hparse, hlook, hfal]
  · intro tasks buckets msgs verify nowMs rawId c sig sdr id task
      hparse hlook hce hse hde hcl hsf
    simp [handlePostMessage, hparse, hlook, Field.isFalsy, Field.asString,
      hce, hse, hde, hcl, hsf]
  · intro tasks buckets msgs verify nowMs rawId c sig sdr id task
      hparse hlook hce hse hde hcl hsf haf
    simp [handlePostMessage, hparse, hlook, Field.isFalsy, Field.asString,
      hce, hse, hde, hcl, hsf, haf]
  · intro tasks buckets msgs verify nowMs rawId c sig sdr id task
      hparse hlook hce hse hde hcl hsf haf hrl
    simp [handlePostMessage, hparse, hlook, Field.isFalsy, Field.asString,
      hce, hse, hde, hcl, hsf, haf, hrl]
  · intro tasks buckets msgs verify nowMs rawId c sig sdr id task
      hparse hlook hce hse hde hcl hsf haf hrl hver hmem
    simp [handlePostMessage, hparse, hlook, Field.isFalsy, Field.asString,
      hce, hse, hde, hcl, hsf, haf, hrl, hver, hmem]

set_option maxRecDepth 10000 in
/-- Witness for C8's amended theorem, one concrete request per stage. -/
theorem post_pipeline_order_witness :
    (handlePostMessage msgTaskStore [] [] verifyAlways 7 .nan
        (.str "hello") (.str sigOk) (.str sndr) = (.invalidTaskId, [], [])) ∧
    (handlePostMessage msgTaskStore [] [] verifyAlways 7 (.intVal 3)
        (.str "hello") (.str "nothex") (.str sndr) = (.taskNotFound, [], [])) ∧
    (handlePostMessage msgTaskStore [] [] verifyAlways 7 (.intVal 0)
        .missing (.str sigOk) (.str sndr) = (.missingFields, [], [])) ∧
    (handlePostMessage msgTaskStore [] [] verifyAlways 7 (.intVal 0)
        (.str "hello") (.str "nothex") (.str sndr) = (.badSignatureFormat, [], [])) ∧
    (handlePostMessage msgTaskStore [] [] verifyAlways 7 (.intVal 0)
        (.str "hello") (.str sigOk) (.str "nothex") = (.badSenderFormat, [], [])) ∧
    (handlePostMessage msgTaskStore [(sndr, ⟨21, 60000⟩)] [] verifyAlways 7 (.intVal 0)
        (.str "hello") (.str sigOk) (.str sndr) =
      (.rateLimited, (isRateLimited 7 (lowerStr sndr) [(sndr, ⟨21, 60000⟩)]).2, [])) ∧
    (handlePostMessage exStore [] [] verifyAlways 7 (.intVal 0)
        (.str "hello") (.str sigOk) (.str sndr) =
      (.notMember, (isRateLimited 7 (lowerStr sndr) []).2, [])) :=
  ⟨post_pipeline_order.1 msgTaskStore [] [] verifyAlways 7 .nan
      (.str "hello") (.str sigOk) (.str sndr) (by decide),
   post_pipeline_order.2.1 msgTaskStore [] [] verifyAlways 7 (.intVal 3)
      (.str "hello") (.str "nothex") (.str sndr) 3 (by decide) (by decide),
   post_pipeline_order.2.2.1 msgTaskStore [] [] verifyAlways 7 (.intVal 0)
      .missing (.str sigOk) (.str sndr) 0 msgTask (by decide) (by decide) (by decide),
   post_pipeline_order.2.2.2.1 msgTaskStore [] [] verifyAlways 7 (.intVal 0)
      "hello" "nothex" sndr 0 msgTask (by decide) (by decide) (by decide) (by decide)
      (by decide) (by decide) (by decide),
   post_pipeline_order.2.2.2.2.1 msgTaskStore [] [] verifyAlways 7 (.intVal 0)
      "hello" sigOk "nothex" 0 msgTask (by decide) (by decide) (by decide) (by decide)
      (by decide) (by decide) (by decide) (by decide),
   post_pipeline_order.2.2.2.2.2.1 msgTaskStore [(sndr, ⟨21, 60000⟩)] [] verifyAlways 7
      (.intVal 0) "hello" sigOk sndr 0 msgTask (by decide) (by decide) (by decide)
      (by decide) (by decide) (by decide) (by decide) (by decide) (by decide),
   post_pipeline_order.2.2.2.2.2.2 exStore [] [] verifyAlways 7 (.intVal 0)
      "hello" sigOk sndr 0 exTask (by decide) (by decide) (by decide) (by decide)
      (by decide) (by decide) (by decide) (by decide) (by decide) (by decide) (by decide)⟩

/-! ## C9 — message cap -/

set_option maxRecDepth 10000 in
/-- Claim C9 (refuted): when the task's message list has reached the
cap, a fully validated and authorized POST does NOT surface a
non-success response — it receives exactly the `201`-with-message
success response that a stored message receives, while the store drops
the message silently. -/
theorem message_cap_returns_false_success :
    ¬ (∀ (tasks : TaskMap) (buckets : Buckets) (msgs : MsgStore)
        (verify : Nat → String → String → String → VerifyOutcome)
        (nowMs : Nat) (rawId : JsNumber) (c sig sdr : String)
        (id : Nat) (task : CachedTask),
        parseId rawId = some id → lookupTask tasks id = some task →
        c.isEmpty = false → sig.isEmpty = false → sdr.isEmpty = false →
        ¬ c.length > MAX_CONTENT_LENGTH → isSigFormat sig = true →
        isAddrFormat sdr = true →
        (isRateLimited nowMs (lowerStr sdr) buckets).1 = false →
        verify id c sig sdr = .valid →
        task.agents.any (fun a => lowerStr a == lowerStr sdr) = true →
        (getMessages msgs id).length ≥ MAX_MESSAGES_PER_TASK →
          ∀ mm : Message,
            (handlePostMessage tasks buckets msgs verify nowMs rawId
                (.str c) (.str sig) (.str sdr)).1 ≠ .created mm) := by
  intro h
  have hne := h msgTaskStore [] fullStore verifyAlways 7 (.intVal 0)
    "hello" sigOk sndr 0 msgTask
    (by decide) (by decide) (by decide) (by decide) (by decide) (by decide)
    (by decide) (by decide) (by decide) (by decide) (by decide) (by decide)
    ⟨0, lowerStr sndr, "hello", 7, sigOk⟩
  exact hne (by decide)

/-- C9 (amended): when the cap is reached the store silently drops the
message — the message store is unchanged — but the route still answers
with the `201` success response carrying the dropped message, a false
success indistinguishable from a stored one. -/
theorem cap_reached_silent_drop_false_success (tasks : TaskMap) (buckets : Buckets)
    (msgs : MsgStore) (verify : Nat → String → String → String → VerifyOutcome)
    (nowMs : Nat) (rawId : JsNumber) (c sig sdr : String) (id : Nat) (task : CachedTask)
    (hparse : parseId rawId = some id) (hlook : lookupTask tasks id = some task)
    (hce : c.isEmpty = false) (hse : sig.isEmpty = false) (hde : sdr.isEmpty = false)
    (hcl : ¬ c.length > MAX_CONTENT_LENGTH) (hsf : isSigFormat sig = true)
    (haf : isAddrFormat sdr = true)
    (hrl : (isRateLimited nowMs (lowerStr sdr) buckets).1 = false)
    (hver : verify id c sig sdr = .valid)
    (hmem : task.agents.any (fun a => lowerStr a == lowerStr sdr) = true)
    (hcap : (getMessages msgs id).length ≥ MAX_MESSAGES_PER_TASK) :
    handlePostMessage tasks buckets msgs verify nowMs rawId (.str c) (.str sig) (.str sdr) =
      (.created ⟨id, lowerStr sdr, c, nowMs, sig⟩,
       (isRateLimited nowMs (lowerStr sdr) buckets).2, msgs) := by
  simp [handlePostMessage, hparse, hlook, Field.isFalsy, Field.asString, hce, hse, hde,
    hcl, hsf, haf, hrl, hver, hmem, addMessage, hcap]

set_option maxRecDepth 10000 in
/-- Witness for C9's amended theorem at the full `fullStore`. -/
theorem cap_reached_silent_drop_false_success_witness :
    handlePostMessage msgTaskStore [] fullStore verifyAlways 7 (.intVal 0)
        (.str "hello") (.str sigOk) (.str sndr) =
      (.created ⟨0, lowerStr sndr, "hello", 7, sigOk⟩,
       (isRateLimited 7 (lowerStr sndr) []).2, fullStore) :=
  cap_reached_silent_drop_false_success msgTaskStore [] fullStore verifyAlways 7
    (.intVal 0) "hello" sigOk sndr 0 msgTask
    (by decide) (by decide) (by decide) (by decide) (by decide) (by decide)
    (by decide) (by decide) (by decide) (by decide) (by decide) (by decide)

/-! ## C10 — rate-limit quota consumption -/

lemma bucketsGet_bucketsSet_self (bs : Buckets) (s : String) (b : Bucket) :
    bucketsGet (bucketsSet bs s b) s = some b := by
  induction bs with
  | nil => simp [bucketsSet, bucketsGet]
  | cons kv rest ih =>
    obtain ⟨k, c⟩ := kv
    by_cases hk : k = s
    · simp [bucketsSet, bucketsGet, hk]
    · simp [bucketsSet, bucketsGet, hk, ih]

lemma isRateLimited_fresh {now : Nat} {s : String} {bs : Buckets}
    (h : bucketsGet bs s = none) :
    isRateLimited now s bs = (false, bucketsSet bs s ⟨1, now + MSG_RATE_WINDOW⟩) := by
  simp [isRateLimited, h]

lemma isRateLimited_hit {now : Nat} {s : String} {bs : Buckets} {b : Bucket}
    (h : bucketsGet bs s = some b) (hlt : now < b.resetAt) :
    isRateLimited now s bs =
      (decide (b.count + 1 > MSG_RATE_LIMIT), bucketsSet bs s ⟨b.count + 1, b.resetAt⟩) := by
  simp [isRateLimited, h, Nat.not_le.mpr hlt]

/-- One C10 scenario step: the bucket map and message store after a
structurally valid but wrongly signed post by `sndr` on task 0. -/
def c10Step (st : Buckets × MsgStore) : Buckets × MsgStore :=
  (handlePostMessage msgTaskStore st.1 st.2 verifyNever 7 (.intVal 0)
      (.str "hello") (.str sigOk) (.str sndr)).2

/-- The C10 scenario state after `k` such posts, from empty maps. -/
def c10Iter : Nat → Buckets × MsgStore
  | 0 => ([], [])
  | k + 1 => c10Step (c10Iter k)

set_option maxRecDepth 10000 in
lemma c10_handle_eval (bs : Buckets) (ms : MsgStore) :
    handlePostMessage msgTaskStore bs ms verifyNever 7 (.intVal 0)
        (.str "hello") (.str sigOk) (.str sndr) =
      (if (isRateLimited 7 (lowerStr sndr) bs).1 then .rateLimited else .invalidSignature,
       (isRateLimited 7 (lowerStr sndr) bs).2, ms) := by
  have hl : lookupTask msgTaskStore 0 = some msgTask := by decide
  have hsf : isSigFormat sigOk = true := by decide
  have haf : isAddrFormat sndr = true := by decide
  have hce : ("hello" : String).isEmpty = false := by decide
  have hse : sigOk.isEmpty = false := by decide
  have hde : sndr.isEmpty = false := by decide
  have hcl : ¬ ("hello" : String).length > MAX_CONTENT_LENGTH := by decide
  have hp : parseId (.intVal 0) = some 0 := by decide
  simp [handlePostMessage, hp, hl, Field.isFalsy, Field.asString, hsf, haf,
    hce, hse, hde, hcl, verifyNever]
  split <;> simp

set_option maxRecDepth 10000 in
lemma c10_handle_valid_rl (bs : Buckets) (ms : MsgStore)
    (h : (isRateLimited 7 (lowerStr sndr) bs).1 = true) :
    (handlePostMessage msgTaskStore bs ms verifyAlways 7 (.intVal 0)
        (.str "hello") (.str sigOk) (.str sndr)).1 = .rateLimited := by
  have hl : lookupTask msgTaskStore 0 = some msgTask := by decide
  have hsf : isSigFormat sigOk = true := by decide
  have haf : isAddrFormat sndr = true := by decide
  have hce : ("hello" : String).isEmpty = false := by decide
  have hse : sigOk.isEmpty = false := by decide
  have hde : sndr.isEmpty = false := by decide
  have hcl : ¬ ("hello" : String).length > MAX_CONTENT_LENGTH := by decide
  have hp : parseId (.intVal 0) = some 0 := by decide
  simp [handlePostMessage, hp, hl, Field.isFalsy, Field.asString, hsf, haf,
    hce, hse, hde, hcl, h]

/-- Claim C10 (confirmed): a post that passes structural validation and
task existence consumes one unit of the sender's rate-limit quota even
when it is then rejected for an invalid signature — the handler returns
the advanced bucket map next to the rejection, the per-sender count
after `k` such failed posts (within one window) is exactly `k`, no
message is ever stored, and once `k ≥ 20` a subsequent well-formed,
correctly signed, authorized post is rejected as rate-limited. -/
theorem rejected_posts_consume_rate_quota :
    (∀ (tasks : TaskMap) (buckets : Buckets) (msgs : MsgStore)
        (verify : Nat → String → String → String → VerifyOutcome)
        (nowMs : Nat) (rawId : JsNumber) (c sig sdr : String)
        (id : Nat) (task : CachedTask),
        parseId rawId = some id → lookupTask tasks id = some task →
        c.isEmpty = false → sig.isEmpty = false → sdr.isEmpty = false →
        ¬ c.length > MAX_CONTENT_LENGTH → isSigFormat sig = true →
        isAddrFormat sdr = true →
        (isRateLimited nowMs (lowerStr sdr) buckets).1 = false →
        verify id c sig sdr = .invalid →
          handlePostMessage tasks buckets msgs verify nowMs rawId
              (.str c) (.str sig) (.str sdr) =
            (.invalidSignature, (isRateLimited nowMs (lowerStr sdr) buckets).2, msgs)) ∧
    (∀ k : Nat,
        (1 ≤ k → bucketsGet (c10Iter k).1 (lowerStr sndr) =
          some ⟨k, 7 + MSG_RATE_WINDOW⟩) ∧
        (c10Iter k).2 = [] ∧
        (20 ≤ k →
          (handlePostMessage msgTaskStore (c10Iter k).1 (c10Iter k).2 verifyAlways 7
              (.intVal 0) (.str "hello") (.str sigOk) (.str sndr)).1 = .rateLimited)) := by
  constructor
  · intro tasks buckets msgs verify nowMs rawId c sig sdr id task
      hparse hlook hce hse hde hcl hsf haf hrl hver
    simp [handlePostMessage, hparse, hlook, Field.isFalsy, Field.asString,
      hce, hse, hde, hcl, hsf, haf, hrl, hver]
  · intro k
    induction k with
    | zero => exact ⟨fun h => absurd h (by decide), rfl, fun h => absurd h (by decide)⟩
    | succ k ih =>
      have hbuckets : bucketsGet (c10Iter (k + 1)).1 (lowerStr sndr) =
          some ⟨k + 1, 7 + MSG_RATE_WINDOW⟩ := by
        show bucketsGet (c10Step (c10Iter k)).1 (lowerStr sndr) = _
        rw [c10Step, c10_handle_eval]
        rcases Nat.eq_zero_or_pos k with hk | hk
        · subst hk
          rw [show (c10Iter 0).1 = [] from rfl,
            isRateLimited_fresh (by simp [bucketsGet])]
          simp [bucketsGet_bucketsSet_self]
        · rw [isRateLimited_hit (ih.1 hk) (by norm_num [MSG_RATE_WINDOW])]
          simp [bucketsGet_bucketsSet_self]
      refine ⟨fun _ => hbuckets, ?_, fun hk => ?_⟩
      · show (c10Step (c10Iter k)).2 = []
        rw [c10Step, c10_handle_eval]
        exact ih.2.1
      · apply c10_handle_valid_rl
        rw [isRateLimited_hit hbuckets (by norm_num [MSG_RATE_WINDOW])]
        simp [MSG_RATE_LIMIT]
        omega

set_option maxRecDepth 100000 in
set_option maxHeartbeats 1000000 in
/-- Witness for C10 at one concrete rejected post and at `k = 20`. -/
theorem rejected_posts_consume_rate_quota_witness :
    (handlePostMessage msgTaskStore [] [] verifyNever 7 (.intVal 0)
        (.str "hello") (.str sigOk) (.str sndr) =
      (.invalidSignature, (isRateLimited 7 (lowerStr sndr) []).2, [])) ∧
    (bucketsGet (c10Iter 20).1 (lowerStr sndr) = some ⟨20, 7 + MSG_RATE_WINDOW⟩) ∧
    ((c10Iter 20).2 = []) ∧
    ((handlePostMessage msgTaskStore (c10Iter 20).1 (c10Iter 20).2 verifyAlways 7
        (.intVal 0) (.str "hello") (.str sigOk) (.str sndr)).1 = .rateLimited) :=
  ⟨rejected_posts_consume_rate_quota.1 msgTaskStore [] [] verifyNever 7 (.intVal 0)
      "hello" sigOk sndr 0 msgTask
      (by decide) (by decide) (by decide) (by decide) (by decide) (by decide)
      (by decide) (by decide) (by decide) (by decide),
   (rejected_posts_consume_rate_quota.2 20).1 (by decide),
   (rejected_posts_consume_rate_quota.2 20).2.1,
   (rejected_posts_consume_rate_quota.2 20).2.2 (by decide)⟩

end Chronos
